import Mathlib

/-!
Verification of the TRPGBOT session/stage progression core.

This file shallowly embeds the stage state machine and persistence helpers of
`scenario_manager.py` and `message_processor.py` into Lean 4 and proves the
specification claims about them.

Modelling conventions:
* Per-user on-disk JSON files are modelled by explicit state values
  (`Option ScenarioData` for the scenario file of one user) threaded through
  the operations; `none` means "file absent".
* `datetime.now()` strings are passed in as an explicit `now : String`
  parameter.
* External collaborators (the NPC subsystem `npc_manager`, the generation
  backend `generate_answer_without_rag`) are modelled by parameters carrying
  the outcome of the external call; `Except Unit _` models a call that can
  raise.
* Python string lengths are code-point counts, as is `String.length` in Lean.
-/

/-! ### Stage enumeration (scenario_manager.py, class ScenarioStage) -/

/-- Embeds `class ScenarioStage(Enum)` of `scenario_manager.py`. -/
inductive ScenarioStage where
  | OVERVIEW
  | EPISODES
  | NPCS
  | HINTS
  | DUNGEONS
  | COMPLETED
deriving DecidableEq, Repr

/-- The `.value` strings of the `ScenarioStage` enum members. -/
def ScenarioStage.value : ScenarioStage → String
  | .OVERVIEW => "개요"
  | .EPISODES => "에피소드"
  | .NPCS => "NPC"
  | .HINTS => "힌트"
  | .DUNGEONS => "던전"
  | .COMPLETED => "완료"

/-- The six stage value strings, in declaration order. -/
def stageValues : List String :=
  [ScenarioStage.OVERVIEW.value, ScenarioStage.EPISODES.value,
   ScenarioStage.NPCS.value, ScenarioStage.HINTS.value,
   ScenarioStage.DUNGEONS.value, ScenarioStage.COMPLETED.value]

/-! ### Per-user scenario record (the JSON document created by
`init_scenario_creation` and mutated by the other `ScenarioManager`
operations). -/

/-- The `scenario.overview` sub-dictionary of the scenario record. -/
structure Overview where
  theme : String
  setting : String
  main_conflict : String
  objective : String
  rewards : String
deriving DecidableEq, Repr

/-- One tagged record of a content category (`episodes`, `npcs`, `hints`,
`dungeons`).  The source stores free-form dictionaries; the embedding keeps
the `id` assigned at append time and the rest of the dictionary as an opaque
`payload`. -/
structure ContentRecord where
  id : Nat
  payload : String
deriving DecidableEq, Repr

/-- The `scenario` sub-dictionary of the scenario record. -/
structure ScenarioContent where
  title : String
  overview : Overview
  episodes : List ContentRecord
  npcs : List ContentRecord
  hints : List ContentRecord
  dungeons : List ContentRecord
deriving DecidableEq, Repr

/-- The per-user scenario JSON document (`scenarios/scenario_<user>.json`).
`last_updated` is absent until the first `save_scenario` writes it. -/
structure ScenarioData where
  user_id : String
  created_at : String
  current_stage : String
  progress : String
  scenario : ScenarioContent
  last_updated : Option String
deriving DecidableEq, Repr

/-- Embeds `save_scenario` (success path): stamps `last_updated` and writes
the record, so the stored file becomes `some` of the stamped record.  The
function returns the new file state; the stamped record is what callers
observe afterwards, because the Python code mutates the dict in place. -/
def save_scenario (now : String) (scenario_data : ScenarioData) : Option ScenarioData :=
  some { scenario_data with last_updated := some now }

/-- Embeds `init_scenario_creation`: unconditionally builds a fresh record
and saves it, regardless of the current file state.  Returns the record
(as mutated by `save_scenario`) together with the new file state. -/
def init_scenario_creation (user_id now : String) (_store : Option ScenarioData) :
    ScenarioData × Option ScenarioData :=
  let scenario_data : ScenarioData :=
    { user_id := user_id
      created_at := now
      current_stage := ScenarioStage.OVERVIEW.value
      progress := "시작_전"
      scenario :=
        { title := ""
          overview :=
            { theme := "", setting := "", main_conflict := "", objective := "", rewards := "" }
          episodes := []
          npcs := []
          hints := []
          dungeons := [] }
      last_updated := none }
  ({ scenario_data with last_updated := some now }, save_scenario now scenario_data)

/-- Embeds `load_scenario` composed with the file state: the stored record,
or `none` when the file is absent. -/
def load_scenario (store : Option ScenarioData) : Option ScenarioData :=
  store

/-- Embeds `get_current_stage`: lazy default `OVERVIEW.value` when no record
exists, else the stored `current_stage`. -/
def get_current_stage (store : Option ScenarioData) : String :=
  match load_scenario store with
  | none => ScenarioStage.OVERVIEW.value
  | some scenario_data => scenario_data.current_stage

/-- Embeds `set_current_stage`: loads the record; only when one exists does
it write the new stage and save.  With no record nothing happens. -/
def set_current_stage (now : String) (store : Option ScenarioData) (stage : String) :
    Option ScenarioData :=
  match load_scenario store with
  | none => store
  | some scenario_data =>
      save_scenario now { scenario_data with current_stage := stage }

/-- Embeds `get_next_stage`: the static `stage_flow` lookup with default
`COMPLETED.value` for any key not in the table (including `COMPLETED`
itself, which yields the terminal self-loop). -/
def get_next_stage (current_stage : String) : String :=
  if current_stage = ScenarioStage.OVERVIEW.value then ScenarioStage.EPISODES.value
  else if current_stage = ScenarioStage.EPISODES.value then ScenarioStage.NPCS.value
  else if current_stage = ScenarioStage.NPCS.value then ScenarioStage.HINTS.value
  else if current_stage = ScenarioStage.HINTS.value then ScenarioStage.DUNGEONS.value
  else if current_stage = ScenarioStage.DUNGEONS.value then ScenarioStage.COMPLETED.value
  else ScenarioStage.COMPLETED.value

/-- Embeds `is_npc_stage_complete`: asks the external `npc_manager` for the
user's NPC list; complete iff the call succeeds and reports at least 3 NPCs
(`existing_npcs and len(existing_npcs) >= 3`; a `None` result behaves like
an empty list).  An exception inside the `try` yields `False`.  The external
NPC records are opaque, modelled here by their names. -/
def is_npc_stage_complete (load_npcs_result : Except Unit (List String)) : Bool :=
  match load_npcs_result with
  | .ok existing_npcs => decide (3 ≤ existing_npcs.length)
  | .error _ => false

/-- Embeds `is_stage_complete`.  `npc_manager` carries the availability of
the external NPC subsystem and, when available, the outcome of its
`load_npcs` call for this user.  Overview completeness is Python `all` over
the truthiness of the four checked overview fields (`title` and `rewards`
are not consulted). -/
def is_stage_complete (npc_manager : Option (Except Unit (List String)))
    (store : Option ScenarioData) (stage : String) : Bool :=
  match load_scenario store with
  | none => false
  | some scenario_data =>
    let scenario := scenario_data.scenario
    if stage = ScenarioStage.OVERVIEW.value then
      let overview := scenario.overview
      overview.theme ≠ "" ∧ overview.setting ≠ "" ∧
        overview.main_conflict ≠ "" ∧ overview.objective ≠ ""
    else if stage = ScenarioStage.EPISODES.value then
      decide (3 ≤ scenario.episodes.length)
    else if stage = ScenarioStage.NPCS.value then
      match npc_manager with
      | some load_npcs_result => is_npc_stage_complete load_npcs_result
      | none => decide (3 ≤ scenario.npcs.length)
    else if stage = ScenarioStage.HINTS.value then
      decide (3 ≤ scenario.hints.length)
    else if stage = ScenarioStage.DUNGEONS.value then
      decide (1 ≤ scenario.dungeons.length)
    else false

/-- Embeds `add_hint`: no-op when no record exists; otherwise assigns
`id := len(hints) + 1` into the payload record, appends it and saves. -/
def add_hint (now : String) (store : Option ScenarioData) (hint_data : ContentRecord) :
    Option ScenarioData :=
  match load_scenario store with
  | none => store
  | some scenario_data =>
      let stamped := { hint_data with id := scenario_data.scenario.hints.length + 1 }
      save_scenario now
        { scenario_data with
            scenario := { scenario_data.scenario with
                            hints := scenario_data.scenario.hints ++ [stamped] } }

/-! ### String helpers shared by the message_processor embeddings.
Python `in`, `str.count`, slicing and `str.lower` are modelled on code-point
lists.  `Char.toLower` lowers the ASCII range; all fixed keywords below are
Korean and unaffected by lowering in both semantics. -/

/-- Boolean infix test on lists (needle occurs contiguously in haystack). -/
def listIsInfix (needle : List Char) (haystack : List Char) : Bool :=
  match haystack with
  | [] => needle.isEmpty
  | _ :: rest => needle.isPrefixOf haystack || listIsInfix needle rest

/-- Python `needle in haystack` (substring containment). -/
def strContains (haystack needle : String) : Bool :=
  listIsInfix needle.toList haystack.toList

/-- Scanner of `countOcc`, structurally recursive on a fuel argument so
that it evaluates by kernel reduction; each step consumes at least one
code point, so `fuel = haystack.length` never runs out early. -/
def countOccAux (needle : List Char) : Nat → List Char → Nat
  | 0, _ => 0
  | _, [] => 0
  | fuel + 1, c :: rest =>
    if needle.isPrefixOf (c :: rest) && !needle.isEmpty then
      1 + countOccAux needle fuel ((c :: rest).drop needle.length)
    else
      countOccAux needle fuel rest

/-- Python `haystack.count(needle)` for a non-empty `needle`: the number of
non-overlapping occurrences, scanning left to right.  (Python returns
`len + 1` for an empty needle; every needle used below is non-empty, and the
embedding returns 0 there.) -/
def countOcc (needle : List Char) (haystack : List Char) : Nat :=
  countOccAux needle haystack.length haystack

/-- Python `l[-n:]` on lists: the last `n` elements for `n > 0`, but the
whole list for `n = 0` (since `l[-0:] = l[0:]`). -/
def pySliceLast (l : List Char) (n : Nat) : List Char :=
  if n = 0 then l else l.drop (l.length - n)

/-- Python `"\n".join(l)`. -/
def joinLines (l : List String) : String :=
  String.intercalate "\n" l

/-- Python `str.lower`, modelled code-point-wise with `Char.toLower`. -/
def strLower (s : String) : String :=
  String.mk (s.toList.map Char.toLower)

/-- Total length of a list of strings (code points). -/
def partsTotalLength (parts : List String) : Nat :=
  (parts.map String.length).sum

/-! ### Context budgeter (message_processor.py: truncate_text_safely,
check_context_size, optimize_context_parts).  The fractional priority shares
`0.3, 0.25, 0.2, 0.15, 0.1` are idealized as the exact rationals
`30/100 .. 10/100` (Python evaluates `int(max_total_length * ratio)` in
binary floating point; the bound claims proved below hold for any allocated
value, so the idealization is harmless). -/

/-- Elision marker prefixed when the tail of a block is kept. -/
def elisionHead : String := "...(이전 내용 생략)...\n"

/-- Elision marker suffixed when the head of a block is kept. -/
def elisionTail : String := "\n...(이후 내용 생략)..."

/-- Embeds `truncate_text_safely`: keeps the text whole when it fits,
otherwise keeps the last `max_length` code points (Python `text[-max_length:]`,
hence the whole text when `max_length = 0`) behind `elisionHead`, or the
first `max_length` code points before `elisionTail`. -/
def truncate_text_safely (text : String) (max_length : Nat) (preserve_end : Bool) : String :=
  if text.length ≤ max_length then text
  else if preserve_end then
    elisionHead ++ String.mk (pySliceLast text.toList max_length)
  else
    String.mk (text.toList.take max_length) ++ elisionTail

/-- The `is_oversized` field of `check_context_size`. -/
def check_context_size_is_oversized (context_parts : List String) (max_total_length : Nat) : Bool :=
  decide (max_total_length < partsTotalLength context_parts)

/-- The `priority_keywords` table of `optimize_context_parts`, shares given
in hundredths. -/
def priority_keywords : List (String × Nat) :=
  [("플레이어 캐릭터 정보", 30), ("시나리오", 25), ("상황 요약", 20), ("설정", 15), ("세션 안내", 10)]

/-- The allocated length for one block: the default even split, overridden
by the first matching priority keyword. -/
def allocated_length_for (max_total_length nparts : Nat) (part_str : String) : Nat :=
  match priority_keywords.find? (fun kr => strContains part_str kr.1) with
  | some kr => max_total_length * kr.2 / 100
  | none => max_total_length / nparts

/-- The truncation direction for one block: conversation/summary blocks keep
their tail. -/
def preserve_end_for (part_str : String) : Bool :=
  strContains part_str "대화 내용" || strContains part_str "상황 요약"

/-- The `actual_length` of one block:
`min(allocated_length, remaining_length, len(part_str))` (the loop only
computes it while `remaining_length` is positive, so the `Int.toNat` is
exact). -/
def actual_length_for (max_total_length nparts : Nat) (remaining : Int)
    (part_str : String) : Nat :=
  min (allocated_length_for max_total_length nparts part_str)
    (min remaining.toNat part_str.length)

/-- The block as emitted by one loop iteration: truncated to its actual
length (in its direction) when longer, else unchanged. -/
def emitted_part (max_total_length nparts : Nat) (remaining : Int)
    (part_str : String) : String :=
  if actual_length_for max_total_length nparts remaining part_str < part_str.length then
    truncate_text_safely part_str
      (actual_length_for max_total_length nparts remaining part_str)
      (preserve_end_for part_str)
  else part_str

/-- The per-block loop of `optimize_context_parts`.  `remaining` is the
running `remaining_length` (an `Int`: the Python value may go negative on
the step that triggers the break on the next iteration).  A non-positive
remainder breaks out, dropping the current and all later blocks. -/
def optimizeLoop (max_total_length nparts : Nat) (remaining : Int) :
    List String → List String
  | [] => []
  | part_str :: rest =>
    if remaining ≤ 0 then []
    else
      emitted_part max_total_length nparts remaining part_str ::
        optimizeLoop max_total_length nparts
          (remaining - (emitted_part max_total_length nparts remaining part_str).length) rest

/-- Embeds `optimize_context_parts`: empty input yields empty output; input
within budget is returned unchanged; otherwise the prioritized truncation
loop runs with the full budget as the initial remainder. -/
def optimize_context_parts (context_parts : List String) (max_total_length : Nat) :
    List String :=
  if context_parts.isEmpty then []
  else if ¬ check_context_size_is_oversized context_parts max_total_length then context_parts
  else optimizeLoop max_total_length context_parts.length max_total_length context_parts

/-- Mirror of `optimizeLoop` counting how many blocks take the truncation
branch (used to state the elision-overhead bound). -/
def optimizeLoopTruncCount (max_total_length nparts : Nat) (remaining : Int) :
    List String → Nat
  | [] => 0
  | part_str :: rest =>
    if remaining ≤ 0 then 0
    else
      (if actual_length_for max_total_length nparts remaining part_str < part_str.length
        then 1 else 0) +
        optimizeLoopTruncCount max_total_length nparts
          (remaining - (emitted_part max_total_length nparts remaining part_str).length) rest

/-- Number of truncated blocks in a full `optimize_context_parts` run. -/
def truncatedBlockCount (context_parts : List String) (max_total_length : Nat) : Nat :=
  if context_parts.isEmpty then 0
  else if ¬ check_context_size_is_oversized context_parts max_total_length then 0
  else optimizeLoopTruncCount max_total_length context_parts.length max_total_length context_parts

/-! ### Session record store (message_processor.py: save_session_data).
The file-manipulating tail of the function is a sequence of three steps on
the per-user session file: write the temp file, remove a pre-existing final
file, rename the temp file over the final path.  Interruption is modelled by
running only a prefix of the steps. -/

/-- The on-disk state of one user's session file of one category: the final
file content and the `.tmp` file content (`none` when absent). -/
structure SessionFileState where
  final : Option String
  tmp : Option String
deriving DecidableEq, Repr

/-- Step 1 of `save_session_data`: write the serialized data to the
temporary path (`open(temp_filepath, 'w')`, flush, fsync). -/
def save_write_tmp (data : String) (s : SessionFileState) : SessionFileState :=
  { s with tmp := some data }

/-- Step 2 of `save_session_data`: `if os.path.exists(filepath):
os.remove(filepath)` — deletes the pre-existing final file. -/
def save_remove_existing (s : SessionFileState) : SessionFileState :=
  if s.final.isSome then { s with final := none } else s

/-- Step 3 of `save_session_data`: `os.rename(temp_filepath, filepath)` —
the temp file becomes the final file. -/
def save_rename_tmp (s : SessionFileState) : SessionFileState :=
  { final := s.tmp, tmp := none }

/-- The ordered file-system steps of one `save_session_data` call. -/
def save_session_data_steps (data : String) : List (SessionFileState → SessionFileState) :=
  [save_write_tmp data, save_remove_existing, save_rename_tmp]

/-- Runs a list of file-system steps in order. -/
def runSteps (steps : List (SessionFileState → SessionFileState)) (s : SessionFileState) :
    SessionFileState :=
  steps.foldl (fun st f => f st) s

/-- A `save_session_data` call that is interrupted after its first `n`
file-system steps. -/
def interrupted_save (data : String) (n : Nat) (s : SessionFileState) : SessionFileState :=
  runSteps ((save_session_data_steps data).take n) s

/-- A completed `save_session_data` call (all steps run). -/
def save_session_data_fs (data : String) (s : SessionFileState) : SessionFileState :=
  runSteps (save_session_data_steps data) s

/-- A subsequent load of the session file: the final file's content, `none`
when the file does not exist. -/
def load_session_data (s : SessionFileState) : Option String :=
  s.final

/-! ### Completion detector (message_processor.py:
extract_session_completion_info). -/

/-- The `completion_keywords` table: the completion keyword phrases per
session type (`dict.get(session_type, [])`). -/
def completion_keywords (session_type : String) : List String :=
  if session_type = "시나리오_생성" then
    ["시나리오 완성", "시나리오 확정", "이제 모험", "모험으로 넘어", "모험 생성", "다음", "완료"]
  else if session_type = "모험_생성" then
    ["모험 완성", "모험 확정", "던전으로", "던전 생성", "파티 결성", "다음", "완료"]
  else if session_type = "던전_생성" then
    ["던전 완성", "던전 확정", "파티로", "파티 결성", "모험 시작", "다음", "완료"]
  else if session_type = "파티_생성" then
    ["파티 완성", "파티 확정", "모험 준비", "준비 시작", "다음", "완료"]
  else if session_type = "파티_결성" then
    ["결성 완료", "파티 완성", "모험 준비", "준비 시작", "다음", "완료"]
  else if session_type = "모험_준비" then
    ["준비 완료", "준비 끝", "모험 시작", "출발", "다음", "완료"]
  else []

/-- The session types that have an entry in `session_descriptions` (the
LLM-judged phase only runs for these). -/
def session_types_with_description : List String :=
  ["시나리오_생성", "모험_생성", "던전_생성", "파티_생성", "파티_결성", "모험_준비"]

/-- Embeds `extract_session_completion_info`.  `backend` is the outcome of
the `generate_answer_with_rag`-family call made in the LLM-judged phase
(`.error` models a raised exception, caught by the `try/except` which
returns `False`).  Phase 1 returns `true` on the first matching completion
keyword; the LLM phase runs only when the session type has a completion
description, and succeeds iff the returned text contains the literal
marker. -/
def extract_session_completion_info (backend : Except Unit String)
    (text session_type : String) (_conversation_history : List String) : Bool :=
  if (completion_keywords session_type).any (fun keyword => strContains text keyword) then
    true
  else if session_types_with_description.contains session_type then
    match backend with
    | .ok completion_result => strContains completion_result "완료"
    | .error _ => false
  else false

/-! ### Repetition guard (message_processor.py:
check_repetitive_situation_in_context). -/

/-- The fixed `repetitive_keywords` motif vocabulary. -/
def repetitive_keywords : List String :=
  ["지하실", "끈적", "상자", "자물쇠", "쇠사슬", "녹슨",
   "어둠", "곰팡이", "습기", "버려진", "폐가", "던전",
   "같은 방", "다시", "또다시", "계속", "반복"]

/-- Python `history[-10:]` (the last 10 turns; the whole history when it is
shorter). -/
def lastTurns (n : Nat) (conversation_history : List String) : List String :=
  conversation_history.drop (conversation_history.length - n)

/-- Python `\s` on the ASCII range (the round-number texts below are ASCII
digits after Korean words, so wider Unicode whitespace never matters for
the proved statements). -/
def isPySpace (c : Char) : Bool :=
  c = ' ' || c = '\t' || c = '\n' || c = '\r' || c = '\x0b' || c = '\x0c'

/-- Numeric value of a digit run, as Python `int`. -/
def natOfDigits (ds : List Char) : Nat :=
  ds.foldl (fun a c => a * 10 + (c.toNat - 48)) 0

/-- The literal round marker of the regex `라운드\s*(\d+)`. -/
def roundKey : List Char := "라운드".toList

/-- The characters after a `라운드` match and its following whitespace run. -/
def roundAfterSpace (haystack : List Char) : List Char :=
  (haystack.drop roundKey.length).dropWhile isPySpace

/-- The digit run captured by `(\d+)` at a `라운드` match position (possibly
empty, in which case the regex match fails there). -/
def roundDigits (haystack : List Char) : List Char :=
  (roundAfterSpace haystack).takeWhile Char.isDigit

/-- Scanner of `findRounds`, structurally recursive on a fuel argument so
that it evaluates by kernel reduction; each step consumes at least one
code point, so `fuel = haystack.length` never runs out early. -/
def findRoundsAux : Nat → List Char → List Nat
  | 0, _ => []
  | _ + 1, [] => []
  | fuel + 1, c :: rest =>
    if roundKey.isPrefixOf (c :: rest) then
      if (roundDigits (c :: rest)).isEmpty then findRoundsAux fuel rest
      else natOfDigits (roundDigits (c :: rest)) ::
        findRoundsAux fuel ((roundAfterSpace (c :: rest)).drop (roundDigits (c :: rest)).length)
    else findRoundsAux fuel rest

/-- Embeds `re.findall(r'라운드\s*(\d+)', recent_text)` followed by `int`:
the numbers of all non-overlapping matches, scanning left to right.  At a
position where `라운드` matches but no digit follows the whitespace run, the
regex match fails and the engine advances one position. -/
def findRounds (haystack : List Char) : List Nat :=
  findRoundsAux haystack.length haystack

/-- Embeds `check_repetitive_situation_in_context`: repetition is declared
when some motif keyword occurs at least 3 times in the lower-cased joined
text of the last 10 turns, or — when the scenario context mentions the
episode marker and the recent text mentions the round marker — the maximum
referenced round number is at least 5.  (The `try/except` never fires in
the pure embedding.) -/
def check_repetitive_situation_in_context (scenario_context : String)
    (conversation_history : List String) : Bool :=
  let recent_conversations := lastTurns 10 conversation_history
  let recent_text := strLower (joinLines recent_conversations)
  let keyword_count := repetitive_keywords.filterMap fun keyword =>
    let count := countOcc keyword.toList recent_text.toList
    if 0 < count then some (keyword, count) else none
  let high_frequency_keywords := keyword_count.filter fun kv => 3 ≤ kv.2
  if !high_frequency_keywords.isEmpty then true
  else if strContains scenario_context "에피소드" && strContains recent_text "라운드" then
    match findRounds recent_text.toList with
    | [] => false
    | r :: rs => if 5 ≤ rs.foldl max r then true else false
  else false

/-! ## Claim theorems -/

/-- C1: the claim says an interrupted `save_session_data` always leaves the
previously saved file untouched, even after the pre-existing destination
file has been removed.  The code removes the destination with `os.remove`
before `os.rename`: interrupting after step 2 (the remove) deletes the old
file, so a subsequent load returns nothing — while interruption before the
remove does preserve it and a completed save installs the new data.  This
contradicts the atomicity the code's own comments and the spec guarantee
(`원자적 쓰기`) promise, so the remove-before-rename is the bug. -/
theorem C1_remove_window_loses_previous_file :
    load_session_data { final := some "old", tmp := none } = some "old"
    ∧ load_session_data (interrupted_save "new" 1 { final := some "old", tmp := none })
        = some "old"
    ∧ load_session_data (interrupted_save "new" 2 { final := some "old", tmp := none })
        = none
    ∧ load_session_data (save_session_data_fs "new" { final := some "old", tmp := none })
        = some "new" := by
  refine ⟨rfl, rfl, rfl, rfl⟩

/-- C2 counterexample: a user with a freshly initialized record (0 locally
stored NPC records) for whom the NPC subsystem reports 3 NPCs — the stage
is reported complete although fewer than 3 NPC records are stored in the
user's own scenario content, refuting the claimed conjunction. -/
theorem C2_counterexample :
    (init_scenario_creation "7" "t" none).2 = some (init_scenario_creation "7" "t" none).1
    ∧ (init_scenario_creation "7" "t" none).1.scenario.npcs.length = 0
    ∧ is_stage_complete (some (Except.ok ["촌장", "대장장이", "여관주인"]))
        ((init_scenario_creation "7" "t" none).2) ScenarioStage.NPCS.value = true := by
  refine ⟨rfl, rfl, rfl⟩

/-- C2 (amended): when the NPC subsystem is available, NPC-stage completion
is decided solely by the subsystem (its load succeeds and reports at least
3 NPCs); the locally stored NPC records are consulted only in the fallback
when the subsystem is unavailable. -/
theorem C2_npc_stage_subsystem_only (load_npcs_result : Except Unit (List String))
    (scenario_data : ScenarioData) :
    is_stage_complete (some load_npcs_result) (some scenario_data) ScenarioStage.NPCS.value
      = is_npc_stage_complete load_npcs_result
    ∧ is_stage_complete none (some scenario_data) ScenarioStage.NPCS.value
      = decide (3 ≤ scenario_data.scenario.npcs.length) := by
  refine ⟨rfl, rfl⟩

/-- C3 counterexample: a user whose stored record was advanced to the Hints
stage; calling `init_scenario_creation` again resets the stored stage to
Overview and does not return the existing record unchanged. -/
theorem C3_counterexample :
    get_current_stage (set_current_stage "t1" ((init_scenario_creation "7" "t0" none).2)
        ScenarioStage.HINTS.value) = ScenarioStage.HINTS.value
    ∧ get_current_stage ((init_scenario_creation "7" "t2"
        (set_current_stage "t1" ((init_scenario_creation "7" "t0" none).2)
          ScenarioStage.HINTS.value)).2) = ScenarioStage.OVERVIEW.value
    ∧ (init_scenario_creation "7" "t2"
        (set_current_stage "t1" ((init_scenario_creation "7" "t0" none).2)
          ScenarioStage.HINTS.value)).2
      ≠ set_current_stage "t1" ((init_scenario_creation "7" "t0" none).2)
          ScenarioStage.HINTS.value := by
  refine ⟨rfl, rfl, by decide⟩

/-- C3 (amended): calling `init_scenario_creation` again does not fail and
does not preserve the existing record: whatever the stored state, it
rebuilds and saves a fresh record whose stage is Overview and whose content
is empty, and the result is the same as for a user with no record at all. -/
theorem C3_init_always_resets (user_id now : String) (store : Option ScenarioData) :
    get_current_stage ((init_scenario_creation user_id now store).2)
      = ScenarioStage.OVERVIEW.value
    ∧ (init_scenario_creation user_id now store).1.scenario =
        { title := ""
          overview := { theme := "", setting := "", main_conflict := "",
                        objective := "", rewards := "" }
          episodes := [], npcs := [], hints := [], dungeons := [] }
    ∧ init_scenario_creation user_id now store = init_scenario_creation user_id now none := by
  refine ⟨rfl, rfl, rfl⟩

/-- C4 counterexample: a record whose four checked overview fields are
non-empty but whose `title` is the empty string is reported Overview-
complete, refuting the claimed five-field condition. -/
theorem C4_counterexample :
    ({ (init_scenario_creation "7" "t" none).1 with
        scenario := { (init_scenario_creation "7" "t" none).1.scenario with
          overview := { theme := "미스터리", setting := "마을",
                        main_conflict := "실종사건", objective := "사건해결",
                        rewards := "" } } } : ScenarioData).scenario.title = ""
    ∧ is_stage_complete none
        (some { (init_scenario_creation "7" "t" none).1 with
          scenario := { (init_scenario_creation "7" "t" none).1.scenario with
            overview := { theme := "미스터리", setting := "마을",
                          main_conflict := "실종사건", objective := "사건해결",
                          rewards := "" } } })
        ScenarioStage.OVERVIEW.value = true := by
  refine ⟨rfl, by decide⟩

/-- C4 (amended): for every stored record, the Overview stage is complete
iff the four fields theme, setting, main_conflict and objective are all
non-empty; `title` and `rewards` are not consulted. -/
theorem C4_overview_complete_iff (npc_manager : Option (Except Unit (List String)))
    (scenario_data : ScenarioData) :
    is_stage_complete npc_manager (some scenario_data) ScenarioStage.OVERVIEW.value = true
      ↔ (scenario_data.scenario.overview.theme ≠ ""
         ∧ scenario_data.scenario.overview.setting ≠ ""
         ∧ scenario_data.scenario.overview.main_conflict ≠ ""
         ∧ scenario_data.scenario.overview.objective ≠ "") := by
  simp [is_stage_complete, load_scenario]

/-- C6: the transition table is total — from Overview, five applications of
`get_next_stage` reach Completed, a sixth stays at Completed, the terminal
stage maps to itself, and every stage's successor is again a stage. -/
theorem C6_stage_flow_total :
    get_next_stage^[5] ScenarioStage.OVERVIEW.value = ScenarioStage.COMPLETED.value
    ∧ get_next_stage^[6] ScenarioStage.OVERVIEW.value = ScenarioStage.COMPLETED.value
    ∧ get_next_stage ScenarioStage.COMPLETED.value = ScenarioStage.COMPLETED.value
    ∧ stageValues.all (fun s => stageValues.contains (get_next_stage s)) = true := by
  exact ⟨rfl, rfl, rfl, by decide⟩

/-- C10: for a user with no stored scenario record, `set_current_stage` is
a complete no-op (no record is created, nothing is written), and a
subsequent `get_current_stage` still returns the lazy default Overview. -/
theorem C10_set_stage_without_record_noop (now stage : String) :
    set_current_stage now none stage = none
    ∧ get_current_stage (set_current_stage now none stage)
        = ScenarioStage.OVERVIEW.value := by
  refine ⟨rfl, rfl⟩

/-- C7: on a freshly initialized scenario record, three `add_hint` calls
with distinct payloads store hint records with ids exactly 1, 2, 3 in
append order (dense, no gaps), after which the Hints stage is complete. -/
theorem C7_three_hints_dense_ids (user_id now0 now1 now2 now3 : String)
    (p1 p2 p3 : ContentRecord)
    (h12 : p1.payload ≠ p2.payload) (h13 : p1.payload ≠ p3.payload)
    (h23 : p2.payload ≠ p3.payload) :
    (add_hint now3
        (add_hint now2
          (add_hint now1 ((init_scenario_creation user_id now0 none).2) p1) p2) p3)
      = some { (init_scenario_creation user_id now0 none).1 with
          scenario := { (init_scenario_creation user_id now0 none).1.scenario with
            hints := [{ p1 with id := 1 }, { p2 with id := 2 }, { p3 with id := 3 }] }
          last_updated := some now3 }
    ∧ (match add_hint now3
          (add_hint now2
            (add_hint now1 ((init_scenario_creation user_id now0 none).2) p1) p2) p3 with
        | some d => d.scenario.hints.map ContentRecord.id
        | none => []) = [1, 2, 3]
    ∧ is_stage_complete none
        (add_hint now3
          (add_hint now2
            (add_hint now1 ((init_scenario_creation user_id now0 none).2) p1) p2) p3)
        ScenarioStage.HINTS.value = true := by
  refine ⟨rfl, rfl, rfl⟩

/-- C7 witness: the three-hint scenario at concrete distinct payloads. -/
theorem C7_three_hints_dense_ids_witness :
    (add_hint "t3"
        (add_hint "t2"
          (add_hint "t1" ((init_scenario_creation "7" "t0" none).2) ⟨0, "단서1"⟩) ⟨0, "단서2"⟩)
        ⟨0, "단서3"⟩)
      = some { (init_scenario_creation "7" "t0" none).1 with
          scenario := { (init_scenario_creation "7" "t0" none).1.scenario with
            hints := [⟨1, "단서1"⟩, ⟨2, "단서2"⟩, ⟨3, "단서3"⟩] }
          last_updated := some "t3" }
    ∧ (match add_hint "t3"
          (add_hint "t2"
            (add_hint "t1" ((init_scenario_creation "7" "t0" none).2) ⟨0, "단서1"⟩)
            ⟨0, "단서2"⟩) ⟨0, "단서3"⟩ with
        | some d => d.scenario.hints.map ContentRecord.id
        | none => []) = [1, 2, 3]
    ∧ is_stage_complete none
        (add_hint "t3"
          (add_hint "t2"
            (add_hint "t1" ((init_scenario_creation "7" "t0" none).2) ⟨0, "단서1"⟩)
            ⟨0, "단서2"⟩) ⟨0, "단서3"⟩)
        ScenarioStage.HINTS.value = true :=
  C7_three_hints_dense_ids "7" "t0" "t1" "t2" "t3" ⟨0, "단서1"⟩ ⟨0, "단서2"⟩ ⟨0, "단서3"⟩
    (by decide) (by decide) (by decide)

/-- C9: when the generation-backend call of the LLM-judged phase raises
(`.error`), `extract_session_completion_info` returns `false` for every
input on which the LLM phase is the one that decides (no completion keyword
of the session type occurs in the user text); the `Bool` return type of the
embedding reflects that the `try/except` never lets the error propagate. -/
theorem C9_backend_error_yields_false (text session_type : String)
    (conversation_history : List String) (e : Unit)
    (hkw : ∀ keyword ∈ completion_keywords session_type,
        strContains text keyword = false) :
    extract_session_completion_info (Except.error e) text session_type
      conversation_history = false := by
  unfold extract_session_completion_info
  have hany : ((completion_keywords session_type).any
      (fun keyword => strContains text keyword)) = false := by
    rw [List.any_eq_false]
    intro k hk
    simp [hkw k hk]
  rw [hany]
  by_cases hst : session_types_with_description.contains session_type <;> simp [hst]

/-- C9 witness: a user text matching no completion keyword of the scenario
session type, with the backend raising. -/
theorem C9_backend_error_yields_false_witness :
    extract_session_completion_info (Except.error ()) "조금 더 논의합시다" "시나리오_생성" []
      = false :=
  C9_backend_error_yields_false "조금 더 논의합시다" "시나리오_생성" [] () (by decide)

theorem foldl_max_lt_of_forall (m : Nat) (l : List Nat) :
    ∀ (r : Nat), r < m → (∀ x ∈ l, x < m) → l.foldl max r < m := by
  induction l with
  | nil => intro r hr _; simpa using hr
  | cons a t ih =>
      intro r hr hall
      simp only [List.foldl_cons]
      refine ih (max r a) ?_ (fun x hx => hall x (List.mem_cons_of_mem a hx))
      have ha : a < m := hall a (List.mem_cons_self a t)
      omega

/-- C8: the repetition guard declares repetition whenever some single motif
keyword occurs at least 3 times in the lower-cased joined text of the last
10 conversation turns; and when every motif occurs at most twice and every
round number referenced in that window is below 5, it declares none. -/
theorem C8_repetition_guard (scenario_context : String)
    (conversation_history : List String) :
    ((∃ keyword ∈ repetitive_keywords,
        3 ≤ countOcc keyword.toList
          (strLower (joinLines (lastTurns 10 conversation_history))).toList) →
      check_repetitive_situation_in_context scenario_context conversation_history = true)
    ∧ ((∀ keyword ∈ repetitive_keywords,
          countOcc keyword.toList
            (strLower (joinLines (lastTurns 10 conversation_history))).toList ≤ 2) →
        (∀ n ∈ findRounds
            (strLower (joinLines (lastTurns 10 conversation_history))).toList, n < 5) →
      check_repetitive_situation_in_context scenario_context conversation_history
        = false) := by
  constructor
  · rintro ⟨k, hk, h3⟩
    unfold check_repetitive_situation_in_context
    have hmem : (k, countOcc k.toList
        (strLower (joinLines (lastTurns 10 conversation_history))).toList)
        ∈ (repetitive_keywords.filterMap fun keyword =>
            let count := countOcc keyword.toList
              (strLower (joinLines (lastTurns 10 conversation_history))).toList
            if 0 < count then some (keyword, count) else none).filter
          fun kv => 3 ≤ kv.2 := by
      rw [List.mem_filter]
      constructor
      · rw [List.mem_filterMap]
        exact ⟨k, hk, by simp only [if_pos (by omega : 0 < countOcc k.toList
            (strLower (joinLines (lastTurns 10 conversation_history))).toList)]⟩
      · simpa using h3
    have hne : ((repetitive_keywords.filterMap fun keyword =>
            let count := countOcc keyword.toList
              (strLower (joinLines (lastTurns 10 conversation_history))).toList
            if 0 < count then some (keyword, count) else none).filter
          fun kv => 3 ≤ kv.2).isEmpty = false :=
      List.isEmpty_eq_false.mpr (List.ne_nil_of_mem hmem)
    simp only [hne, Bool.not_false, if_true]
  · intro hle h5
    unfold check_repetitive_situation_in_context
    have hfe : ((repetitive_keywords.filterMap fun keyword =>
            let count := countOcc keyword.toList
              (strLower (joinLines (lastTurns 10 conversation_history))).toList
            if 0 < count then some (keyword, count) else none).filter
          fun kv => 3 ≤ kv.2) = [] := by
      rw [List.filter_eq_nil_iff]
      intro kv hkv
      rw [List.mem_filterMap] at hkv
      obtain ⟨a, ha, hfa⟩ := hkv
      simp only [] at hfa
      split at hfa
      · cases hfa
        simp only [decide_eq_true_eq]
        have := hle a ha
        omega
      · cases hfa
    simp only [hfe, List.isEmpty_nil, Bool.not_true, Bool.false_eq_true, if_false]
    split
    · cases hfr : findRounds
          (strLower (joinLines (lastTurns 10 conversation_history))).toList with
      | nil => rfl
      | cons r rs =>
        have hmax : rs.foldl max r < 5 := by
          refine foldl_max_lt_of_forall 5 rs r ?_ ?_
          · exact h5 r (by rw [hfr]; exact List.mem_cons_self r rs)
          · intro x hx
            exact h5 x (by rw [hfr]; exact List.mem_cons_of_mem r hx)
        simp only [if_neg (by omega : ¬ 5 ≤ rs.foldl max r)]
    · rfl

/-- C8 witness: a window where the motif `던전` occurs three times triggers
the guard, and a window with at most two motif occurrences and a largest
round number of 4 does not. -/
theorem C8_repetition_guard_witness :
    check_repetitive_situation_in_context "" ["던전과 던전의 던전"] = true
    ∧ check_repetitive_situation_in_context "에피소드 1" ["라운드 4 진행", "던전 입구"]
        = false :=
  ⟨(C8_repetition_guard "" ["던전과 던전의 던전"]).1 (by decide),
   (C8_repetition_guard "에피소드 1" ["라운드 4 진행", "던전 입구"]).2 (by decide) (by decide)⟩

theorem partsTotalLength_nil : partsTotalLength [] = 0 := rfl

theorem partsTotalLength_cons (p : String) (l : List String) :
    partsTotalLength (p :: l) = p.length + partsTotalLength l := by
  simp [partsTotalLength]

theorem actual_length_le_toNat (max_total nparts : Nat) (remaining : Int)
    (part_str : String) :
    actual_length_for max_total nparts remaining part_str ≤ remaining.toNat := by
  unfold actual_length_for
  omega

theorem emitted_part_whole (max_total nparts : Nat) (remaining : Int) (part_str : String)
    (h : ¬ actual_length_for max_total nparts remaining part_str < part_str.length) :
    emitted_part max_total nparts remaining part_str = part_str := by
  unfold emitted_part
  rw [if_neg h]

theorem whole_length_le_remaining (max_total nparts : Nat) (remaining : Int)
    (part_str : String) (hr : 0 < remaining)
    (h : ¬ actual_length_for max_total nparts remaining part_str < part_str.length) :
    (part_str.length : Int) ≤ remaining := by
  unfold actual_length_for at h
  omega

theorem emitted_part_trunc_length (max_total nparts : Nat) (remaining : Int)
    (part_str : String) (hr : 0 < remaining)
    (hpos : 1 ≤ allocated_length_for max_total nparts part_str)
    (h : actual_length_for max_total nparts remaining part_str < part_str.length) :
    (emitted_part max_total nparts remaining part_str).length
      = actual_length_for max_total nparts remaining part_str + 17 := by
  have hact1 : 1 ≤ actual_length_for max_total nparts remaining part_str := by
    unfold actual_length_for
    have hlen : 1 ≤ part_str.length := by omega
    omega
  have hlist : part_str.toList.length = part_str.length := rfl
  unfold emitted_part
  rw [if_pos h]
  unfold truncate_text_safely
  rw [if_neg (by omega)]
  by_cases hpe : preserve_end_for part_str = true
  · rw [if_pos hpe, String.length_append]
    have hhead : elisionHead.length = 17 := rfl
    have hslice : (pySliceLast part_str.toList
        (actual_length_for max_total nparts remaining part_str)).length
        = actual_length_for max_total nparts remaining part_str := by
      unfold pySliceLast
      rw [if_neg (by omega)]
      rw [List.length_drop]
      omega
    have hmk : (String.mk (pySliceLast part_str.toList
        (actual_length_for max_total nparts remaining part_str))).length
        = (pySliceLast part_str.toList
            (actual_length_for max_total nparts remaining part_str)).length := rfl
    omega
  · rw [if_neg hpe, String.length_append]
    have htail : elisionTail.length = 17 := rfl
    have hmk : (String.mk (part_str.toList.take
        (actual_length_for max_total nparts remaining part_str))).length
        = (part_str.toList.take
            (actual_length_for max_total nparts remaining part_str)).length := rfl
    rw [List.length_take] at hmk
    omega

theorem optimizeLoop_total_length_bound (max_total nparts : Nat) (parts : List String) :
    ∀ (remaining : Int),
      (∀ part_str ∈ parts, 1 ≤ allocated_length_for max_total nparts part_str) →
      (partsTotalLength (optimizeLoop max_total nparts remaining parts) : Int)
        ≤ max remaining 0
          + 17 * (optimizeLoopTruncCount max_total nparts remaining parts : Int) := by
  induction parts with
  | nil =>
      intro remaining _
      simp only [optimizeLoop, optimizeLoopTruncCount, partsTotalLength_nil]
      omega
  | cons part_str rest ih =>
      intro remaining hpos
      rw [optimizeLoop, optimizeLoopTruncCount]
      by_cases hr : remaining ≤ 0
      · rw [if_pos hr, if_pos hr, partsTotalLength_nil]
        omega
      · rw [if_neg hr, if_neg hr, partsTotalLength_cons]
        push_neg at hr
        have hrest : ∀ p ∈ rest, 1 ≤ allocated_length_for max_total nparts p :=
          fun p hp => hpos p (List.mem_cons_of_mem part_str hp)
        have ihr := ih
          (remaining - (emitted_part max_total nparts remaining part_str).length) hrest
        by_cases htr : actual_length_for max_total nparts remaining part_str
            < part_str.length
        · have hel := emitted_part_trunc_length max_total nparts remaining part_str hr
            (hpos part_str (List.mem_cons_self part_str rest)) htr
          have hale : actual_length_for max_total nparts remaining part_str
              ≤ remaining.toNat := actual_length_le_toNat max_total nparts remaining part_str
          rw [if_pos htr]
          rw [hel] at ihr ⊢
          push_cast at ihr ⊢
          omega
        · have hew := emitted_part_whole max_total nparts remaining part_str htr
          have hle := whole_length_le_remaining max_total nparts remaining part_str hr htr
          rw [if_neg htr]
          rw [hew] at ihr ⊢
          push_cast at ihr ⊢
          omega

theorem allocated_length_pos (max_total nparts : Nat) (part_str : String)
    (hlen : 1 ≤ nparts) (hmax : 10 * nparts ≤ max_total) :
    1 ≤ allocated_length_for max_total nparts part_str := by
  unfold allocated_length_for
  cases hf : priority_keywords.find? (fun kr => strContains part_str kr.1) with
  | none =>
      rw [Nat.one_le_div_iff (by omega)]
      omega
  | some kr =>
      have hmem := List.mem_of_find?_eq_some hf
      have h10 : 10 ≤ kr.2 := by
        simp only [priority_keywords, List.mem_cons, List.not_mem_nil, or_false] at hmem
        rcases hmem with h | h | h | h | h <;> rw [h]
        all_goals norm_num
      rw [Nat.one_le_div_iff (by norm_num)]
      have h100 : 10 * 10 ≤ max_total * kr.2 := Nat.mul_le_mul (by omega) h10
      omega

/-- C5 counterexample: a single summary-tagged block of length 100 against
a budget of 4.  Its priority share `int(4 * 0.2)` is 0, and the tail-keeping
truncation `text[-0:]` then keeps the whole block, so the output totals 117
characters — more than budget (4) plus the elision overhead (17) times the
one truncated block. -/
theorem C5_counterexample :
    partsTotalLength ["상황 요약" ++ String.mk (List.replicate 95 'a')] = 100
    ∧ check_context_size_is_oversized
        ["상황 요약" ++ String.mk (List.replicate 95 'a')] 4 = true
    ∧ truncatedBlockCount ["상황 요약" ++ String.mk (List.replicate 95 'a')] 4 = 1
    ∧ partsTotalLength
        (optimize_context_parts ["상황 요약" ++ String.mk (List.replicate 95 'a')] 4) = 117
    ∧ ¬ partsTotalLength
          (optimize_context_parts ["상황 요약" ++ String.mk (List.replicate 95 'a')] 4)
        ≤ 4 + elisionHead.length
              * truncatedBlockCount ["상황 요약" ++ String.mk (List.replicate 95 'a')] 4 := by
  refine ⟨by decide, by decide, by decide, by decide, by decide⟩

/-- C5 (amended): for every block list whose total length exceeds the
budget, provided the budget grants every block a positive allocation
(`10 * number of blocks ≤ budget`, which holds in particular at the
production budget of 7000 with its handful of blocks), the total output
length is at most the budget plus the elision-marker overhead times the
number of truncated blocks; and once the remaining budget is exhausted,
later blocks are dropped entirely, never partially included.  Without the
positive-allocation proviso a zero-allocated tail-keeping block is kept
whole (Python `text[-0:]`), as the counterexample shows. -/
theorem C5_budget_bound (context_parts : List String) (max_total_length : Nat)
    (hover : check_context_size_is_oversized context_parts max_total_length = true)
    (halloc : 10 * context_parts.length ≤ max_total_length) :
    partsTotalLength (optimize_context_parts context_parts max_total_length)
      ≤ max_total_length
        + elisionHead.length * truncatedBlockCount context_parts max_total_length
    ∧ ∀ (nparts : Nat) (remaining : Int) (part_str : String) (rest : List String),
        remaining ≤ 0 →
        optimizeLoop max_total_length nparts remaining (part_str :: rest) = [] := by
  constructor
  · have hne : context_parts.isEmpty = false := by
      cases hc : context_parts with
      | nil =>
          rw [hc] at hover
          simp [check_context_size_is_oversized, partsTotalLength] at hover
      | cons a l => rfl
    have hlen : 1 ≤ context_parts.length := by
      cases context_parts with
      | nil => simp at hne
      | cons a l => simp
    unfold optimize_context_parts truncatedBlockCount
    rw [hne]
    simp only [Bool.false_eq_true, if_false, hover, not_true, if_false]
    have hbound := optimizeLoop_total_length_bound max_total_length context_parts.length
      context_parts (max_total_length : Int)
      (fun p _ => allocated_length_pos max_total_length context_parts.length p hlen halloc)
    have hmax : max (max_total_length : Int) 0 = (max_total_length : Int) := by omega
    rw [hmax] at hbound
    have h17 : elisionHead.length = 17 := rfl
    rw [h17]
    exact_mod_cast hbound
  · intro nparts remaining part_str rest hr
    rw [optimizeLoop, if_pos hr]

/-- C5 witness: one 30-character block against a budget of 20 (head-kept
truncation to 20 characters plus the 17-character marker gives exactly
20 + 17 × 1). -/
theorem C5_budget_bound_witness :
    partsTotalLength (optimize_context_parts [String.mk (List.replicate 30 'a')] 20)
      ≤ 20 + elisionHead.length
            * truncatedBlockCount [String.mk (List.replicate 30 'a')] 20 :=
  (C5_budget_bound [String.mk (List.replicate 30 'a')] 20 (by decide) (by decide)).1
